import Mathlib

/-!
Verification development for the flexographic production planner
(`core/optimizer.py`, `core/calculators.py`, `services/scheduling_service.py`).

The Python code is shallowly embedded:

* Python `float` values are modelled as exact rationals (`ℚ`); the source
  performs no operation whose outcome the claims depend on float rounding for.
* `datetime` values are modelled as rational minutes elapsed since an epoch
  placed on a Monday at 00:00, so `weekday()` is the day index modulo 7 and
  sub-minute precision (seconds, microseconds) is the fractional part of a
  minute.
* The JSON-bearing text columns (`colores`, `materiales`, `datos`,
  `share_rolls`) are modelled up to the distinctions the scheduling code
  observes: SQL NULL, the empty string, the literal text `null`, a text
  parsing to an array of string tokens, a text parsing to a flat object,
  and a text rejected by `json.loads`.  The payloads of these columns are
  arrays of string tokens and flat objects, so other JSON shapes are not
  modelled.
* Raised exceptions are modelled by explicit error values; the distinction
  between exceptions caught by the local `except (json.JSONDecodeError,
  TypeError)` handlers and exceptions that propagate (`AttributeError`,
  `ValueError`) is kept.
* `while` loops are modelled with explicit fuel; running out of fuel is a
  distinguished outcome, never conflated with a raised error.
* The source rounds the persisted copies of the duration fields with
  `round(x, 2)`; that rounding is presentational and is omitted here, the
  record carries the exact quantities.
-/

/-! ## Python-level JSON values -/

/-- A scalar JSON value as it appears inside the `datos` object
(`id_cliente` is compared with `==` and for truthiness only). -/
inductive PyVal
  | vint (n : ℤ)
  | vstr (s : String)
  | vnull
deriving DecidableEq

/-- Python truthiness of a scalar value (`0`, `""` and `None` are falsy). -/
def PyVal.truthy : PyVal → Bool
  | .vint n => n != 0
  | .vstr s => s != ""
  | .vnull => false

/-- Python truthiness of an optional scalar (`None` is falsy). -/
def pyTruthyOpt : Option PyVal → Bool
  | none => false
  | some v => v.truthy

/-- The raw text of a JSON-bearing column, modelled up to the distinctions
the scheduling code observes (see the file header). -/
inductive RawJson
  | pyNone                                 -- SQL NULL, surfaced as Python `None`
  | emptyText                              -- the empty string
  | nullText                               -- the literal text `null`
  | listText (xs : List String)            -- a text parsing to an array of string tokens
  | objText (kvs : List (String × PyVal))  -- a text parsing to a flat object
  | badText                                -- a text rejected by `json.loads`
deriving DecidableEq

/-- Python truthiness of the raw column value: `None` and the empty string
are falsy, every other text is a non-empty string and hence truthy. -/
def RawJson.truthy : RawJson → Bool
  | .pyNone => false
  | .emptyText => false
  | _ => true

/-- Exceptions as the embedded code distinguishes them: `handled` stands for
`json.JSONDecodeError` or `TypeError` (caught by the local handlers),
`unhandled` for exceptions that propagate (`AttributeError`). -/
inductive PyExc
  | handled
  | unhandled
deriving DecidableEq

/-- `set(json.loads(text))` on a truthy text: an array yields the set of its
tokens, an object yields the set of its keys, `null` parses to `None` and
`set(None)` raises `TypeError`, a rejected text raises `json.JSONDecodeError`;
`json.loads(None)` raises `TypeError`.  All of those exceptions are caught by
the surrounding handlers, hence `handled`. -/
def jsonSet : RawJson → Except PyExc (Finset String)
  | .listText xs => .ok xs.toFinset
  | .objText kvs => .ok (kvs.map Prod.fst).toFinset
  | _ => .error .handled

/-- Result of `json.loads` on the `datos` column, classified by whether the
loaded value supports `.get`: only a dict does, every other successfully
loaded value makes the subsequent `.get` raise `AttributeError`. -/
inductive DatosVal
  | dict (kvs : List (String × PyVal))
  | nondict
deriving DecidableEq

/-- `json.loads(text)` on the `datos` column (no truthiness guard):
`None` raises `TypeError`, the empty or rejected text raises
`json.JSONDecodeError` (both `handled`); `null` parses to `None` and an array
parses to a list, neither of which supports the `.get` that follows. -/
def datosLoads : RawJson → Except PyExc DatosVal
  | .objText kvs => .ok (.dict kvs)
  | .nullText => .ok .nondict
  | .listText _ => .ok .nondict
  | .pyNone => .error .handled
  | .emptyText => .error .handled
  | .badText => .error .handled

/-- `d.get('id_cliente')` on the loaded `datos` value.  On a dict the JSON
parser keeps the last binding of a repeated key; a stored JSON `null` and a
missing key both surface as Python `None`.  On a non-dict the call raises
`AttributeError`, which no local handler catches. -/
def datosGet (k : String) : DatosVal → Except PyExc (Option PyVal)
  | .dict kvs =>
      .ok (match kvs.reverse.find? (fun kv => kv.fst = k) with
           | some (_, .vnull) => none
           | some (_, v) => some v
           | none => none)
  | .nondict => .error .unhandled

/-! ## Data model (`schemas/db_models.py`) -/

/-- `MachineModel`, restricted to the attributes the scheduling core reads. -/
structure MachineModel where
  id : ℤ
  inks : ℤ
  functional_inks : ℤ
  avg_velocity : ℚ
  time_change_units : ℚ
  share_rolls : RawJson := .pyNone
  estatus : String := "activa"
deriving DecidableEq

/-- `SchedulableOrderModel`, restricted to the attributes the scheduling
core reads.  Delivery dates are timestamps (minutes since the epoch). -/
structure SchedulableOrderModel where
  id : ℤ
  producto_id : ℤ := 0
  status : ℤ := 0
  datos : RawJson := .objText []
  fecha_entrega : Option ℚ := none
  fecha_forzosa_entrega : Option ℚ := none
  prioridad_planeacion : ℤ := 0
  dias_restantes : Option ℤ := none
  producto_nombre : String := ""
  cantidad : String := ""
  colores : RawJson := .pyNone
  num_colores : ℤ := 0
  materiales : RawJson := .listText []
  total_peso_neto : ℚ := 0
  total_metros_impresion : ℚ := 0
  num_etiquetas : ℤ := 1
deriving DecidableEq

/-- Python `x or d` on numbers: `d` when `x` is zero (falsy), else `x`. -/
def pyOr (x d : ℚ) : ℚ := if x = 0 then d else x

/-- Python `x or d` on integers. -/
def pyOrZ (x d : ℤ) : ℤ := if x = 0 then d else x

/-! ## Enriched orders (`core/optimizer.py`, `EnrichedOrder`) -/

/-- `EnrichedOrder`: the pre-parsed view of an order built by
`EnrichedOrder.__init__`. -/
structure EnrichedOrder where
  original : SchedulableOrderModel
  id : ℤ
  colores : Finset String
  materiales : Finset String
  id_cliente : Option PyVal
deriving DecidableEq

instance : Inhabited EnrichedOrder :=
  ⟨⟨{ id := 0 }, 0, ∅, ∅, none⟩⟩

/-- `set(json.loads(r)) if r and r != 'null' else set()`: the guarded parse
applied to the `colores` and `materiales` attributes inside
`EnrichedOrder.__init__`. -/
def guardedJsonSet (r : RawJson) : Except PyExc (Finset String) :=
  if r.truthy && !(r = RawJson.nullText) then jsonSet r else .ok ∅

/-- The customer-id extraction inside `EnrichedOrder.__init__`: load the
`datos` text when truthy (falling back to an empty dict otherwise) and call
`.get('id_cliente')` on the result. -/
def datosCliente (r : RawJson) : Except PyExc (Option PyVal) :=
  if r.truthy then do
    let d ← datosLoads r
    datosGet "id_cliente" d
  else .ok none

/-- `EnrichedOrder.__init__`.  The three JSON-bearing attributes are parsed
inside one `try` block; `except (json.JSONDecodeError, TypeError)` resets all
three to empty.  A `datos` text that loads to a non-dict makes `.get` raise
`AttributeError`, which is not caught: that case is `none` (construction
raises). -/
def mkEnrichedOrder (o : SchedulableOrderModel) : Option EnrichedOrder :=
  let body : Except PyExc (Finset String × Finset String × Option PyVal) := do
    let colores ← guardedJsonSet o.colores
    let materiales ← guardedJsonSet o.materiales
    let id_cliente ← datosCliente o.datos
    .ok (colores, materiales, id_cliente)
  match body with
  | .ok (c, m, i) => some ⟨o, o.id, c, m, i⟩
  | .error .handled => some ⟨o, o.id, ∅, ∅, none⟩
  | .error .unhandled => none

/-! ## Urgency classification (`core/optimizer.py`, `clasificar_urgencia`) -/

inductive Urgencia
  | CRITICA_ATRASADA
  | ATRASADA
  | URGENTE
  | PROXIMA
  | NORMAL
deriving DecidableEq

/-- `clasificar_urgencia`: missing `dias_restantes` is replaced by 999. -/
def clasificarUrgencia (o : SchedulableOrderModel) : Urgencia :=
  let dias := o.dias_restantes.getD 999
  if dias < -30 then .CRITICA_ATRASADA
  else if dias < 0 then .ATRASADA
  else if dias ≤ 3 then .URGENTE
  else if dias ≤ 7 then .PROXIMA
  else .NORMAL

/-! ## Optimizer weights (`core/optimizer.py`, `OptimizerConfig`) -/

def SETUP_COST_WEIGHT : ℚ := 100
def DELAY_PENALTY_WEIGHT : ℚ := 10
def INK_OVERCAPACITY_PENALTY : ℚ := 1000
def MATERIAL_CHANGE_FACTOR : ℚ := 2
def MATERIAL_SAME_FACTOR : ℚ := 1/2
def INK_CLEAN_COST : ℚ := 5
def INK_ADD_COST : ℚ := 25
def SAME_CLIENT_BONUS_FACTOR : ℚ := 8/10
def HIGH_INK_PRIORITY_WEIGHT : ℚ := 50000
def COLOR_REUSE_BONUS : ℚ := 15

/-! ## Genetic sequencer cost model (`AlgoritmoGeneticoFlexo`) -/

/-- `AlgoritmoGeneticoFlexo._calcular_costo_cambio`.  It operates on
pre-parsed `EnrichedOrder` data, so the `except` clause of the source is
unreachable and the function is total. -/
def calcularCostoCambio (m : MachineModel) (orden_anterior orden_actual : EnrichedOrder) : ℚ :=
  let tiempo_base := pyOr m.time_change_units 15
  let costo_material :=
    if orden_anterior.materiales ≠ orden_actual.materiales then
      tiempo_base * MATERIAL_CHANGE_FACTOR
    else
      tiempo_base * MATERIAL_SAME_FACTOR
  let tintas_a_quitar := orden_anterior.colores \ orden_actual.colores
  let tintas_a_anadir := orden_actual.colores \ orden_anterior.colores
  let tintas_reutilizadas := orden_anterior.colores ∩ orden_actual.colores
  let costo_tintas := costo_material
    + (tintas_a_anadir.card : ℚ) * INK_ADD_COST
    + (tintas_a_quitar.card : ℚ) * INK_CLEAN_COST
    - (tintas_reutilizadas.card : ℚ) * COLOR_REUSE_BONUS
  let costo_cliente :=
    if pyTruthyOpt orden_anterior.id_cliente
        ∧ orden_anterior.id_cliente = orden_actual.id_cliente then
      costo_tintas * SAME_CLIENT_BONUS_FACTOR
    else costo_tintas
  max 0 costo_cliente

/-- `AlgoritmoGeneticoFlexo._estimar_tiempo_produccion`: raw print-time
estimate in minutes (no efficiency, no calendar). -/
def estimarTiempoProduccion (m : MachineModel) (orden : SchedulableOrderModel) : ℚ :=
  if orden.total_metros_impresion = 0 ∨ m.avg_velocity = 0 then 0
  else
    let velocidad_metros_por_minuto := m.avg_velocity / 60
    orden.total_metros_impresion / velocidad_metros_por_minuto

/-- The lateness penalty term of `_evaluate_fitness` (source lines 156-173):
zero when `dias_restantes` is missing or the accumulated time has not passed
the deadline, otherwise the overshoot times the urgency weight, capped at
500000. -/
def penalizacionRetraso (orden : SchedulableOrderModel) (tiempo_acumulado : ℚ) : ℚ :=
  match orden.dias_restantes with
  | none => 0
  | some dias =>
      let plazo_minutos : ℚ := (dias : ℚ) * 1440
      if plazo_minutos < tiempo_acumulado then
        let retraso := tiempo_acumulado - plazo_minutos
        let peso : ℚ :=
          match clasificarUrgencia orden with
          | .CRITICA_ATRASADA => 50
          | .ATRASADA => 50
          | .URGENTE => 20
          | _ => DELAY_PENALTY_WEIGHT
        min (retraso * peso) 500000
      else 0

/-- The complexity-by-position shaping term of `_evaluate_fitness`
(source lines 116-134): a bonus (negative contribution) for ink-heavy
orders placed early, a penalty for simple orders placed early. -/
def shapingTerm (num_colores : ℕ) (posicion_normalizada : ℚ) : ℚ :=
  if 5 ≤ num_colores then
    -(((1 - posicion_normalizada) ^ 2) * (num_colores : ℚ) * HIGH_INK_PRIORITY_WEIGHT)
  else if 3 ≤ num_colores then
    -((1 - posicion_normalizada) * (num_colores : ℚ) * (HIGH_INK_PRIORITY_WEIGHT * (2/10)))
  else
    (1 - posicion_normalizada) * ((3 : ℚ) - (num_colores : ℚ)) * (HIGH_INK_PRIORITY_WEIGHT * (1/2))

/-- The walk of `_evaluate_fitness` over the individual.  `ordenes` is the
position-indexed order table (`ordenes_dict` composed with `idx_to_order_id`
is positional lookup), `n` the individual's length, `i` the current position,
`prev` the previously visited order. -/
def evaluateFitnessLoop (m : MachineModel) (ordenes : List EnrichedOrder) (n : ℕ) :
    ℕ → Option EnrichedOrder → ℚ → ℚ → List ℕ → ℚ
  | _, _, score, _, [] => score
  | i, prev, score, tiempo_acumulado, current_idx :: rest =>
      let current_order := ordenes.getD current_idx default
      let num_colores_orden := current_order.colores.card
      let posicion_normalizada : ℚ := (i : ℚ) / (n : ℚ)
      let score := score + shapingTerm num_colores_orden posicion_normalizada
      let (score, tiempo_acumulado) :=
        match prev with
        | none => (score, tiempo_acumulado)
        | some previous_order =>
            let costo_cambio := calcularCostoCambio m previous_order current_order
            (score + costo_cambio * SETUP_COST_WEIGHT, tiempo_acumulado + costo_cambio)
      let tiempo_acumulado := tiempo_acumulado + estimarTiempoProduccion m current_order.original
      let functional_inks := pyOrZ m.functional_inks m.inks
      let score :=
        if functional_inks < (num_colores_orden : ℤ) then
          score + ((num_colores_orden : ℚ) - (functional_inks : ℚ)) * INK_OVERCAPACITY_PENALTY
        else score
      let score := score + penalizacionRetraso current_order.original tiempo_acumulado
      evaluateFitnessLoop m ordenes n (i + 1) (some current_order) score tiempo_acumulado rest

/-- `AlgoritmoGeneticoFlexo._evaluate_fitness`: the score of an individual
(a permutation of positions into `ordenes`), lower is better. -/
def evaluateFitness (m : MachineModel) (ordenes : List EnrichedOrder)
    (individual_indices : List ℕ) : ℚ :=
  evaluateFitnessLoop m ordenes individual_indices.length 0 none 0 0 individual_indices

/-! ## Planner configuration (`core/calculators.py`, `PlannerConfig`) -/

/-- `PlannerConfig` with its source defaults.  Shift counts, hours and the
day-start hour are the non-negative integers the configurations use;
`dias_laborales` is the resolved list (the `None`-to-Mon-Sat defaulting of
the model validator is applied). -/
structure PlannerConfig where
  turnos_dia_semana : ℕ := 1
  horas_por_turno_semana : ℕ := 10
  turnos_sabado : ℕ := 2
  dias_laborales : List ℤ := [0, 1, 2, 3, 4, 5]
  horas_por_turno_sabado : ℕ := 8
  hora_inicio_turno1 : ℕ := 7
  eficiencia_maquina : ℚ := 85/100
  buffer_seguridad_pct : ℚ := 1/100
  costo_cambio_tinta_min : ℚ := 5
  factor_cambio_material_completo : ℚ := 1
  factor_cambio_material_parcial : ℚ := 1/2
  bonificacion_mismo_cliente_pct : ℚ := 7/10
deriving DecidableEq

/-- The `minutos_laborables_por_dia` table built by `DateCalculator.__init__`
(0 = Monday, ..., 6 = Sunday; Saturday is day 5). -/
def minutosLaborables (cfg : PlannerConfig) (dia : ℤ) : ℚ :=
  if dia ∈ cfg.dias_laborales then
    if dia = 5 then (cfg.horas_por_turno_sabado * 60 * cfg.turnos_sabado : ℕ)
    else (cfg.horas_por_turno_semana * 60 * cfg.turnos_dia_semana : ℕ)
  else 0

/-! ## Datetime model

A timestamp is a rational number of minutes since an epoch placed on a
Monday at 00:00.  Sub-minute precision (seconds and microseconds) is the
fractional part of a minute and is preserved by `datetime.replace(hour=...,
minute=...)`, exactly as in the source. -/

/-- The calendar day index of a timestamp. -/
def dayIndex (t : ℚ) : ℤ := ⌊t / 1440⌋

/-- `datetime.weekday()`: 0 = Monday, ..., 6 = Sunday. -/
def weekdayOf (t : ℚ) : ℤ := dayIndex t % 7

/-- `t.replace(hour=h, minute=mnt)`: the day and the sub-minute fraction are
kept, the hour and minute components are replaced. -/
def replaceHM (t : ℚ) (h mnt : ℤ) : ℚ :=
  1440 * (dayIndex t : ℚ) + 60 * (h : ℚ) + (mnt : ℚ) + Int.fract t

/-- `(t + timedelta(days=1)).replace(hour=cfg.hora_inicio_turno1, minute=0)`:
the start of the next calendar day (seconds preserved, as in the source). -/
def nextDayStart (cfg : PlannerConfig) (t : ℚ) : ℚ :=
  replaceHM (t + 1440) (cfg.hora_inicio_turno1 : ℤ) 0

/-- The 24/7 fast-path test of `_ajustar_horario_laboral` (source line 70):
every weekday provides 1440 working minutes. -/
def esCalendario247 (cfg : PlannerConfig) : Bool :=
  (List.range 7).all (fun d => minutosLaborables cfg (d : ℤ) = 1440)

/-- Outcome of the calendar walk: a reached timestamp, a `ValueError` raised
by `datetime.replace` because the computed hour falls outside 0..23, or fuel
exhaustion (the source loop would still be running). -/
inductive AjusteResult
  | ok (t : ℚ)
  | hourError
  | fuelOut
deriving DecidableEq

/-- `hora_fin` (source line 84): `hora_inicio_turno1 + minutos_laborables_hoy / 60`. -/
def horaFinDe (cfg : PlannerConfig) (fecha_actual : ℚ) : ℚ :=
  (cfg.hora_inicio_turno1 : ℚ) + minutosLaborables cfg (weekdayOf fecha_actual) / 60

/-- `fin_jornada_hoy` (source line 85): the current timestamp with the hour
replaced by `int(hora_fin)` and the minute by `int((hora_fin * 60) % 60)`
(which equals `⌊60 * hora_fin⌋ - 60 * ⌊hora_fin⌋`). -/
def finJornadaHoy (cfg : PlannerConfig) (fecha_actual : ℚ) : ℚ :=
  replaceHM fecha_actual ⌊horaFinDe cfg fecha_actual⌋
    (⌊60 * horaFinDe cfg fecha_actual⌋ - 60 * ⌊horaFinDe cfg fecha_actual⌋)

/-- The `while minutos_restantes > 0` loop of `_ajustar_horario_laboral`
(source lines 74-97).  On a non-working day the time jumps to the start of
the next calendar day; on a working day the minutes from the current
timestamp up to `fin_jornada_hoy` are available, and
`replace(hour=int(hora_fin), minute=int((hora_fin * 60) % 60))` raises
`ValueError` when `int(hora_fin) > 23`. -/
def ajustarLoop (cfg : PlannerConfig) : ℕ → ℚ → ℚ → AjusteResult
  | fuel, fecha_actual, minutos_restantes =>
    if minutos_restantes ≤ 0 then .ok fecha_actual
    else
      match fuel with
      | 0 => .fuelOut
      | fuel + 1 =>
        let minutos_laborables_hoy := minutosLaborables cfg (weekdayOf fecha_actual)
        if minutos_laborables_hoy = 0 then
          if 24 ≤ cfg.hora_inicio_turno1 then .hourError
          else ajustarLoop cfg fuel (nextDayStart cfg fecha_actual) minutos_restantes
        else
          if 24 ≤ ⌊horaFinDe cfg fecha_actual⌋ then .hourError
          else
            let minutos_disponibles_hoy := max 0 (finJornadaHoy cfg fecha_actual - fecha_actual)
            if minutos_restantes ≤ minutos_disponibles_hoy then
              .ok (fecha_actual + minutos_restantes)
            else if 24 ≤ cfg.hora_inicio_turno1 then .hourError
            else
              ajustarLoop cfg fuel (nextDayStart cfg fecha_actual)
                (minutos_restantes - minutos_disponibles_hoy)

/-- `DateCalculator._ajustar_horario_laboral`: the 24/7 fast path returns
`fecha_inicio + minutos_a_sumar` directly, otherwise the day-by-day loop
runs. -/
def ajustarHorarioLaboral (cfg : PlannerConfig) (fecha_inicio minutos_a_sumar : ℚ)
    (fuel : ℕ) : AjusteResult :=
  if esCalendario247 cfg then .ok (fecha_inicio + minutos_a_sumar)
  else ajustarLoop cfg fuel fecha_inicio minutos_a_sumar

/-! ## Date calculator cost model (`DateCalculator._calcular_tiempo_cambio`) -/

/-- `DateCalculator._calcular_tiempo_cambio`.  Unlike the genetic
sequencer's cost, it uses the `PlannerConfig` factors, charges ink changes
by `|num_colores(P) − num_colores(S)|`, applies the same-customer factor
whenever the two `.get('id_cliente')` results compare equal (also when both
are `None`), and has no final clamp.  A `datos` text loading to a non-dict
makes `.get` raise `AttributeError`, which the handler does not catch:
that case is `none` (the exception propagates). -/
def calcularTiempoCambio (cfg : PlannerConfig) (orden_anterior orden_actual : SchedulableOrderModel)
    (m : MachineModel) : Option ℚ :=
  let tiempo_base := pyOr m.time_change_units 15
  let body : Except PyExc ℚ := do
    let materiales_ant ←
      if orden_anterior.materiales.truthy then jsonSet orden_anterior.materiales else .ok ∅
    let materiales_act ←
      if orden_actual.materiales.truthy then jsonSet orden_actual.materiales else .ok ∅
    let costo :=
      if materiales_ant ≠ materiales_act then tiempo_base * cfg.factor_cambio_material_completo
      else tiempo_base * cfg.factor_cambio_material_parcial
    let costo := costo
      + ((pyOrZ orden_anterior.num_colores 0 - pyOrZ orden_actual.num_colores 0).natAbs : ℚ)
        * cfg.costo_cambio_tinta_min
    let datos_ant ← datosLoads orden_anterior.datos
    let datos_act ← datosLoads orden_actual.datos
    let cliente_ant ← datosGet "id_cliente" datos_ant
    let cliente_act ← datosGet "id_cliente" datos_act
    .ok (if cliente_ant = cliente_act then costo * cfg.bonificacion_mismo_cliente_pct else costo)
  match body with
  | .ok costo => some costo
  | .error .handled => some tiempo_base
  | .error .unhandled => none

/-! ## Date calculator walk (`DateCalculator.calcular_fechas_probables`) -/

/-- The real (efficiency-adjusted) print time of one order (source lines
153-159): a falsy `avg_velocity` falls back to 150 m/h before the
zero-velocity guard is evaluated. -/
def tiempoImpresionReal (cfg : PlannerConfig) (m : MachineModel)
    (orden : SchedulableOrderModel) : ℚ :=
  let velocidad_m_hora := pyOr m.avg_velocity 150
  let velocidad_m_min := velocidad_m_hora / 60
  let metros_totales := pyOr orden.total_metros_impresion 0
  let tiempo_impresion_teorico := if 0 < velocidad_m_min then metros_totales / velocidad_m_min else 0
  tiempo_impresion_teorico / cfg.eficiencia_maquina

/-- One emitted record of `calcular_fechas_probables`: the order's data plus
the decomposed duration fields and the completion timestamp. -/
structure RegistroOrden where
  orden : SchedulableOrderModel
  probable_fecha_entrega : ℚ
  tiempo_setup_min : ℚ
  tiempo_cambios_internos_min : ℚ
  tiempo_impresion_min : ℚ
  tiempo_buffer_min : ℚ
  tiempo_total_min : ℚ
deriving DecidableEq

/-- The loop body of `calcular_fechas_probables` (source lines 140-198).
`duracion_orden_minutos` accumulates only the real print time (line 160);
the subtotal of line 163 (`setup + cambios internos + impresión`) is
computed and immediately overwritten by line 167, so the buffer and the
total are based on the print time alone.  `none` models a propagated
exception (from the setup computation or from `datetime.replace`). -/
def calcularFechasLoop (cfg : PlannerConfig) (m : MachineModel) (fuel : ℕ) :
    Option SchedulableOrderModel → ℚ → List SchedulableOrderModel →
    Option (List RegistroOrden)
  | _, _, [] => some []
  | prev, fecha_acumulada, orden :: rest =>
      let setupRes : Option ℚ :=
        match prev with
        | none => some 0
        | some anterior => calcularTiempoCambio cfg anterior orden m
      match setupRes with
      | none => none
      | some tiempo_setup =>
        let num_etiquetas := pyOrZ orden.num_etiquetas 1
        let tiempo_cambios_internos := ((num_etiquetas - 1 : ℤ) : ℚ) * pyOr m.time_change_units 15
        let tiempo_impresion_real := tiempoImpresionReal cfg m orden
        let duracion_orden_minutos := tiempo_impresion_real
        -- line 163 computes `tiempo_setup + tiempo_cambios_internos +
        -- tiempo_impresion_real` into `duracion_total_orden`, but line 167
        -- overwrites that value before it is ever read
        let tiempo_buffer := duracion_orden_minutos * cfg.buffer_seguridad_pct
        let duracion_total_orden := duracion_orden_minutos + tiempo_buffer
        match ajustarHorarioLaboral cfg fecha_acumulada duracion_total_orden fuel with
        | .hourError => none
        | .fuelOut => none
        | .ok fecha_fin_orden =>
          match calcularFechasLoop cfg m fuel (some orden) fecha_fin_orden rest with
          | none => none
          | some resto =>
              some ({ orden := orden
                      probable_fecha_entrega := fecha_fin_orden
                      tiempo_setup_min := tiempo_setup
                      tiempo_cambios_internos_min := tiempo_cambios_internos
                      tiempo_impresion_min := tiempo_impresion_real
                      tiempo_buffer_min := tiempo_buffer
                      tiempo_total_min := duracion_total_orden } :: resto)

/-- `DateCalculator.calcular_fechas_probables`. -/
def calcularFechasProbables (cfg : PlannerConfig) (m : MachineModel)
    (ordenes_secuenciadas : List SchedulableOrderModel) (fecha_inicio : ℚ)
    (fuel : ℕ) : Option (List RegistroOrden) :=
  calcularFechasLoop cfg m fuel none fecha_inicio ordenes_secuenciadas

/-- Chained-timestamp check: each record's completion timestamp is reached
from the previous one by advancing the working calendar by exactly that
record's `tiempo_total_min`. -/
def datesChained (cfg : PlannerConfig) (fuel : ℕ) : ℚ → List RegistroOrden → Bool
  | _, [] => true
  | fecha, r :: rest =>
      decide (ajustarHorarioLaboral cfg fecha r.tiempo_total_min fuel = .ok r.probable_fecha_entrega)
        && datesChained cfg fuel r.probable_fecha_entrega rest

/-! ## Schedule construction (`services/scheduling_service.py`)

`generate_optimal_schedule` (source lines 67-110) and the per-machine body
of `generate_optimal_schedule_all_machines` (source lines 302-333) build the
final sequence identically: forced-date orders sorted ascending by forced
date, followed by the genetic sequencer's output over the remaining
orders. -/

/-- The comparison used by `sorted(..., key=lambda o: o.fecha_forzosa_entrega)`;
it is only ever applied to orders whose forced date is present. -/
def leFechaForzosa (a b : SchedulableOrderModel) : Bool :=
  decide (a.fecha_forzosa_entrega.getD 0 ≤ b.fecha_forzosa_entrega.getD 0)

/-- `ordenes_forzosas`: the orders with a forced delivery date, sorted
ascending by that date (Python `sorted` is a stable sort; `mergeSort` is
one). -/
def ordenesForzosas (orders : List SchedulableOrderModel) : List SchedulableOrderModel :=
  (orders.filter (fun o => o.fecha_forzosa_entrega.isSome)).mergeSort leFechaForzosa

/-- `ordenes_optimizables`: the orders without a forced delivery date; this
is exactly the list handed to `AlgoritmoGeneticoFlexo` (when it has at least
two elements) or passed through unchanged (when it has at most one). -/
def ordenesOptimizables (orders : List SchedulableOrderModel) : List SchedulableOrderModel :=
  orders.filter (fun o => o.fecha_forzosa_entrega.isNone)

/-- `secuencia_final_con_razon`, projected to order ids: forced ids first,
then the sequencer's output `gaOut`. -/
def secuenciaFinalIds (orders : List SchedulableOrderModel) (gaOut : List ℤ) : List ℤ :=
  (ordenesForzosas orders).map (fun o => o.id) ++ gaOut

/-- Whether the order carrying a given id in the input pool has a forced
delivery date. -/
def esForzosaId (orders : List SchedulableOrderModel) (i : ℤ) : Bool :=
  orders.any (fun o => o.id = i && o.fecha_forzosa_entrega.isSome)

/-! ## The generational engine (`deap.algorithms.eaSimple`)

`AlgoritmoGeneticoFlexo.optimizar` drives `deap.algorithms.eaSimple` with a
`HallOfFame(1)`.  The engine is embedded with its random draws reified as
explicit data: each tournament's aspirant indices, and the per-pair
crossover and per-individual mutation coin flips (`random.random() < cxpb`
/ `< mutpb`).  The crossover and mutation operators themselves are
parameters, exactly as `eaSimple` receives them through the toolbox. -/

/-- `deap.tools.selTournament(individuals, k, tournsize=3)`: each tournament
draws `tournsize` aspirants (with replacement; the drawn positions are the
reified randomness) and keeps the one with the best fitness, i.e. the
lowest score under the minimizing weight; Python `max` keeps the first of
equals. -/
def selTournament (score : List ℕ → ℚ) (pop : List (List ℕ))
    (aspirant_draws : List (List ℕ)) : List (List ℕ) :=
  aspirant_draws.map (fun draws =>
    match draws.map (fun j => pop.getD j []) with
    | [] => []
    | a :: rest => rest.foldl (fun best cand => if score cand < score best then cand else best) a)

/-- The crossover pass of `deap.algorithms.varAnd`: adjacent pairs
`(offspring[i-1], offspring[i])` are mated when the corresponding coin flip
succeeds. -/
def cxPass (mate : List ℕ → List ℕ → List ℕ × List ℕ) :
    List Bool → List (List ℕ) → List (List ℕ)
  | _, [] => []
  | _, [x] => [x]
  | [], l => l
  | b :: bs, x :: y :: rest =>
      let (x', y') := if b then mate x y else (x, y)
      x' :: y' :: cxPass mate bs rest

/-- The mutation pass of `deap.algorithms.varAnd`: each individual is
mutated when its coin flip succeeds. -/
def mutPass (mutOp : List ℕ → List ℕ) : List Bool → List (List ℕ) → List (List ℕ)
  | _, [] => []
  | [], l => l
  | b :: bs, x :: rest => (if b then mutOp x else x) :: mutPass mutOp bs rest

/-- `deap.algorithms.varAnd`: clone, crossover pass, mutation pass. -/
def varAnd (mate : List ℕ → List ℕ → List ℕ × List ℕ) (mutOp : List ℕ → List ℕ)
    (cx_flips mut_flips : List Bool) (offspring : List (List ℕ)) : List (List ℕ) :=
  mutPass mutOp mut_flips (cxPass mate cx_flips offspring)

/-- The reified random draws of one `eaSimple` generation. -/
structure GenRand where
  aspirant_draws : List (List ℕ)
  cx_flips : List Bool
  mut_flips : List Bool

/-- One generation of `deap.algorithms.eaSimple`: select by tournaments,
then vary; the result replaces the population wholesale (`pop[:] =
offspring`). -/
def eaSimpleStep (score : List ℕ → ℚ) (mate : List ℕ → List ℕ → List ℕ × List ℕ)
    (mutOp : List ℕ → List ℕ) (g : GenRand) (pop : List (List ℕ)) : List (List ℕ) :=
  varAnd mate mutOp g.cx_flips g.mut_flips (selTournament score pop g.aspirant_draws)

/-- `deap.tools.HallOfFame.update` for a hall of size 1: a candidate
replaces the stored individual only when its fitness is strictly better
(its score strictly lower). -/
def hofUpdate (score : List ℕ → ℚ) (hof : List ℕ) (cands : List (List ℕ)) : List ℕ :=
  cands.foldl (fun h c => if score c < score h then c else h) hof

/-- The generation loop of `eaSimple`: each generation produces offspring,
updates the hall of fame with them, and replaces the population. -/
def eaSimpleRun (score : List ℕ → ℚ) (mate : List ℕ → List ℕ → List ℕ × List ℕ)
    (mutOp : List ℕ → List ℕ) : List GenRand → List (List ℕ) → List ℕ →
    List (List ℕ) × List ℕ
  | [], pop, hof => (pop, hof)
  | g :: gs, pop, hof =>
      let offspring := eaSimpleStep score mate mutOp g pop
      eaSimpleRun score mate mutOp gs offspring (hofUpdate score hof offspring)

/-- A crossover operator that returns its arguments unchanged; the concrete
runs below draw no crossover coin, so `varAnd` never applies it. -/
def trivialMate (x y : List ℕ) : List ℕ × List ℕ := (x, y)

/-- A mutation operator that returns its argument unchanged; the concrete
runs below draw no mutation coin, so `varAnd` never applies it. -/
def trivialMut (x : List ℕ) : List ℕ := x

/-- The crossover pass with all coin flips `false` changes nothing. -/
theorem cxPass_all_false (mate : List ℕ → List ℕ → List ℕ × List ℕ) :
    ∀ (n : ℕ) (l : List (List ℕ)), cxPass mate (List.replicate n false) l = l
  | n, [] => by cases n <;> simp [cxPass]
  | n, [x] => by cases n <;> simp [cxPass]
  | 0, x :: y :: rest => by simp [cxPass]
  | n + 1, x :: y :: rest => by
      simp only [List.replicate, cxPass, if_neg (by simp : ¬ (false = true))]
      exact congrArg (fun l => x :: y :: l) (cxPass_all_false mate n rest)

/-- The mutation pass with all coin flips `false` changes nothing. -/
theorem mutPass_all_false (mutOp : List ℕ → List ℕ) :
    ∀ (n : ℕ) (l : List (List ℕ)), mutPass mutOp (List.replicate n false) l = l
  | n, [] => by cases n <;> simp [mutPass]
  | 0, x :: rest => by simp [mutPass]
  | n + 1, x :: rest => by
      simp only [List.replicate, mutPass]
      exact congrArg (x :: ·) (mutPass_all_false mutOp n rest)

/-- `varAnd` with all coin flips `false` changes nothing, whatever the
operators are. -/
theorem varAnd_all_false (mate : List ℕ → List ℕ → List ℕ × List ℕ)
    (mutOp : List ℕ → List ℕ) (nc nm : ℕ) (off : List (List ℕ)) :
    varAnd mate mutOp (List.replicate nc false) (List.replicate nm false) off = off := by
  simp [varAnd, cxPass_all_false, mutPass_all_false]

/-! ## Concrete configurations -/

/-- The `PlannerConfig` that `SchedulingService` constructs for every date
calculation (source lines 113-121, 335-343, 637-645): two 12-hour shifts
every day of the week starting at 08:00, efficiency 0.95.  Every weekday
then provides 1440 working minutes, so the 24/7 fast path applies. -/
def cfgService : PlannerConfig :=
  { turnos_dia_semana := 2
    horas_por_turno_semana := 12
    dias_laborales := [0, 1, 2, 3, 4, 5, 6]
    hora_inicio_turno1 := 8
    turnos_sabado := 2
    horas_por_turno_sabado := 12
    eficiencia_maquina := 95/100 }

/-- The default `PlannerConfig`: one 10-hour weekday shift from 07:00,
Monday-Saturday working. -/
def cfgDefault : PlannerConfig := {}

/-- A valid configuration whose weekdays carry two 12-hour shifts (1440
minutes) from 07:00 while Sunday is non-working. -/
def cfgC10 : PlannerConfig :=
  { turnos_dia_semana := 2
    horas_por_turno_semana := 12 }

/-! ## Concrete machines and orders used by the counterexamples and
witnesses -/

/-- A machine with the nominal attributes of scenario S1 of the spec. -/
def mStd : MachineModel :=
  { id := 1, inks := 6, functional_inks := 6, avg_velocity := 150, time_change_units := 15 }

/-- A machine whose average velocity is recorded as 0. -/
def mVel0 : MachineModel :=
  { id := 2, inks := 6, functional_inks := 6, avg_velocity := 0, time_change_units := 15 }

/-- A two-label order: 950 printed meters, two labels, no colors recorded. -/
def oDosEtiquetas : SchedulableOrderModel :=
  { id := 10, total_metros_impresion := 950, num_etiquetas := 2 }

/-- A 1000-meter order. -/
def oMilMetros : SchedulableOrderModel :=
  { id := 11, total_metros_impresion := 1000 }

/-- Predecessor order for the transition-cost comparison: one color `"A"`,
material `"M"`, customer 1. -/
def oCambioAnt : SchedulableOrderModel :=
  { id := 20, colores := .listText ["A"], num_colores := 1
    materiales := .listText ["M"], datos := .objText [("id_cliente", .vint 1)] }

/-- Successor order for the transition-cost comparison: one color `"B"`,
material `"M"`, customer 2. -/
def oCambioAct : SchedulableOrderModel :=
  { id := 21, colores := .listText ["B"], num_colores := 1
    materiales := .listText ["M"], datos := .objText [("id_cliente", .vint 2)] }

/-- An ink-heavy order (five colors, no meters). -/
def oCincoColores : SchedulableOrderModel :=
  { id := 30, colores := .listText ["A", "B", "C", "D", "E"], num_colores := 5
    materiales := .listText ["M"] }

/-- A colorless order (no meters). -/
def oSinColores : SchedulableOrderModel :=
  { id := 31, colores := .listText [], num_colores := 0
    materiales := .listText ["M"] }

/-- An order whose `colores` and `materiales` parse but whose `datos` text
is rejected by `json.loads`. -/
def oDatosMalos : SchedulableOrderModel :=
  { id := 40, colores := .listText ["A"], materiales := .listText [], datos := .badText }

/-- The enrichment of `oCambioAnt`. -/
def eCambioAnt : EnrichedOrder := ⟨oCambioAnt, 20, {"A"}, {"M"}, some (.vint 1)⟩

/-- The enrichment of `oCambioAct`. -/
def eCambioAct : EnrichedOrder := ⟨oCambioAct, 21, {"B"}, {"M"}, some (.vint 2)⟩

/-- The enrichment of `oCincoColores`. -/
def eCincoColores : EnrichedOrder := ⟨oCincoColores, 30, {"A", "B", "C", "D", "E"}, {"M"}, none⟩

/-- The enrichment of `oSinColores`. -/
def eSinColores : EnrichedOrder := ⟨oSinColores, 31, ∅, {"M"}, none⟩

/-! ## Claim C2 -/

/-- Modelled from the claim's description of the cost-model transition cost:
material factor on the base time, plus `|to_add| * ink_add_cost` plus
`|to_remove| * ink_clean_cost` minus `|reused| * color_reuse_bonus` over the
color sets, the same-customer bonus when the predecessor's customer id is
truthy and equal to the successor's, and the result clamped to be
non-negative. -/
def specTransitionCost (m : MachineModel) (P S : EnrichedOrder) : ℚ :=
  let base := pyOr m.time_change_units 15
  let materialTerm :=
    if P.materiales ≠ S.materiales then base * MATERIAL_CHANGE_FACTOR
    else base * MATERIAL_SAME_FACTOR
  let to_add := S.colores \ P.colores
  let to_remove := P.colores \ S.colores
  let reused := P.colores ∩ S.colores
  let inkTerm := materialTerm + (to_add.card : ℚ) * INK_ADD_COST
    + (to_remove.card : ℚ) * INK_CLEAN_COST - (reused.card : ℚ) * COLOR_REUSE_BONUS
  let customerTerm :=
    if pyTruthyOpt P.id_cliente ∧ P.id_cliente = S.id_cliente then
      inkTerm * SAME_CLIENT_BONUS_FACTOR
    else inkTerm
  max 0 customerTerm

/-- C2, counterexample.  On the same pair of adjacent orders (equal
materials, disjoint single-color sets, distinct customers) the Date
Calculator's setup time is 7.5 minutes (half the base time, no ink term
because `num_colores` is 1 on both sides) while the Genetic Sequencer's
transition cost is 37.5 minutes (half the base plus 25 for the added ink
plus 5 for the removed ink): the two embedded transition-cost functions do
not agree. -/
theorem C2_counterexample :
    calcularTiempoCambio cfgService oCambioAnt oCambioAct mStd = some (15/2)
    ∧ mkEnrichedOrder oCambioAnt = some eCambioAnt
    ∧ mkEnrichedOrder oCambioAct = some eCambioAct
    ∧ calcularCostoCambio mStd eCambioAnt eCambioAct = 75/2
    ∧ (15/2 : ℚ) ≠ 75/2 := by
  refine ⟨?_, ?_, ?_, ?_, by norm_num⟩
  · norm_num +decide [calcularTiempoCambio, cfgService, oCambioAnt, oCambioAct, mStd, pyOr,
      pyOrZ, jsonSet, datosLoads, datosGet, RawJson.truthy, Except.bind, bind]
  · norm_num +decide [mkEnrichedOrder, guardedJsonSet, datosCliente, oCambioAnt, eCambioAnt,
      jsonSet, datosLoads, datosGet, RawJson.truthy, Except.bind, bind]
  · norm_num +decide [mkEnrichedOrder, guardedJsonSet, datosCliente, oCambioAct, eCambioAct,
      jsonSet, datosLoads, datosGet, RawJson.truthy, Except.bind, bind]
  · norm_num +decide [calcularCostoCambio, mStd, eCambioAnt, eCambioAct, pyOr, pyTruthyOpt,
      PyVal.truthy, MATERIAL_CHANGE_FACTOR, MATERIAL_SAME_FACTOR, INK_ADD_COST, INK_CLEAN_COST,
      COLOR_REUSE_BONUS, SAME_CLIENT_BONUS_FACTOR]

/-- C2, amended: the Genetic Sequencer's transition cost follows exactly the
formula the claim describes (material factor on the base time, set-based ink
add/remove/reuse terms, same-customer bonus when the predecessor's customer
id is truthy and equal to the successor's, clamped to be non-negative), but
the Date Calculator's setup time is computed by a different, simpler
embedded function and the two do not agree on every input. -/
theorem C2_ga_cost_matches_spec_model (m : MachineModel) (P S : EnrichedOrder) :
    calcularCostoCambio m P S = specTransitionCost m P S := by
  simp only [calcularCostoCambio, specTransitionCost]

/-! ## Claim C4 -/

/-- C4, counterexample.  On a machine whose recorded average velocity is 0
and an order of 1000 meters, the Genetic Sequencer's raw print-time estimate
is 0, but the Date Calculator's efficiency-adjusted print time is not 0: the
falsy velocity falls back to 150 m/h (`machine.avg_velocity or 150.0`), so
the print time is 1000 / 2.5 / 0.95 = 8000/19 minutes. -/
theorem C4_counterexample :
    estimarTiempoProduccion mVel0 oMilMetros = 0
    ∧ tiempoImpresionReal cfgService mVel0 oMilMetros = 8000/19
    ∧ tiempoImpresionReal cfgService mVel0 oMilMetros ≠ 0 := by
  refine ⟨?_, ?_, ?_⟩
  · norm_num [estimarTiempoProduccion, mVel0, oMilMetros]
  · norm_num [tiempoImpresionReal, cfgService, mVel0, oMilMetros, pyOr]
  · norm_num [tiempoImpresionReal, cfgService, mVel0, oMilMetros, pyOr]

/-- C4, amended: the Genetic Sequencer's raw estimate is 0 whenever the
velocity or the meters are 0; the Date Calculator's real print time is 0
when the meters are 0, but a velocity recorded as 0 falls back to the
default 150 m/h, so its print time is `meters / 2.5 / efficiency` rather
than 0. -/
theorem C4_print_time_zero_cases :
    (∀ (m : MachineModel) (o : SchedulableOrderModel),
        m.avg_velocity = 0 ∨ o.total_metros_impresion = 0 →
        estimarTiempoProduccion m o = 0)
    ∧ (∀ (cfg : PlannerConfig) (m : MachineModel) (o : SchedulableOrderModel),
        o.total_metros_impresion = 0 → tiempoImpresionReal cfg m o = 0)
    ∧ (∀ (cfg : PlannerConfig) (m : MachineModel) (o : SchedulableOrderModel),
        m.avg_velocity = 0 →
        tiempoImpresionReal cfg m o =
          (o.total_metros_impresion / (150 / 60)) / cfg.eficiencia_maquina) := by
  refine ⟨?_, ?_, ?_⟩
  · intro m o h
    rcases h with h | h <;> simp [estimarTiempoProduccion, h]
  · intro cfg m o h
    simp only [tiempoImpresionReal, pyOr, h, if_pos rfl]
    split <;> simp
  · intro cfg m o h
    simp only [tiempoImpresionReal, pyOr, h, if_pos rfl]
    rcases eq_or_ne o.total_metros_impresion 0 with h0 | h0 <;> simp [h0]

/-- C4, witness for the amended statement: instantiates all three parts on
the zero-velocity machine and a 1000-meter order, plus a zero-meter order. -/
theorem C4_witness :
    (mVel0.avg_velocity = 0 ∨ oMilMetros.total_metros_impresion = 0)
    ∧ estimarTiempoProduccion mVel0 oMilMetros = 0
    ∧ oDosEtiquetas.total_metros_impresion ≠ 0
    ∧ ({ id := 99 } : SchedulableOrderModel).total_metros_impresion = 0
    ∧ tiempoImpresionReal cfgService mVel0 { id := 99 } = 0
    ∧ mVel0.avg_velocity = 0
    ∧ tiempoImpresionReal cfgService mVel0 oMilMetros =
        (oMilMetros.total_metros_impresion / (150 / 60)) / cfgService.eficiencia_maquina := by
  have h1 : mVel0.avg_velocity = 0 := by norm_num [mVel0]
  have h2 : ({ id := 99 } : SchedulableOrderModel).total_metros_impresion = 0 := by norm_num
  refine ⟨Or.inl h1, C4_print_time_zero_cases.1 mVel0 oMilMetros (Or.inl h1),
    by norm_num [oDosEtiquetas], h2,
    C4_print_time_zero_cases.2.1 cfgService mVel0 { id := 99 } h2, h1,
    C4_print_time_zero_cases.2.2 cfgService mVel0 oMilMetros h1⟩

/-! ## Claim C9 -/

/-- C9, counterexample.  On an order whose `colores` text parses (to the
token set containing `"A"`) and whose `datos` text is rejected by
`json.loads`, the enriched order's color set is empty, not the parsed set:
a parse failure in one field does not leave the successfully parsed fields
intact. -/
theorem C9_counterexample :
    jsonSet oDatosMalos.colores = .ok {"A"}
    ∧ (mkEnrichedOrder oDatosMalos).map EnrichedOrder.colores = some ∅
    ∧ (mkEnrichedOrder oDatosMalos).map EnrichedOrder.colores ≠ some {"A"} := by
  refine ⟨by norm_num +decide [jsonSet, oDatosMalos], ?_, ?_⟩ <;>
    norm_num +decide [mkEnrichedOrder, guardedJsonSet, datosCliente, oDatosMalos, jsonSet,
      datosLoads, datosGet, RawJson.truthy, Except.bind, bind]

/-- C9, amended: a parse failure (`json.JSONDecodeError` / `TypeError`) in
any of the three JSON-bearing fields causes all three to be treated as
empty, not only the failing one; no error is raised and processing
continues.  Each field keeps its parsed value only when all three parse
steps succeed. -/
theorem C9_parse_failure_resets_all :
    (∀ (o : SchedulableOrderModel) (cs ms : Finset String),
        guardedJsonSet o.colores = .ok cs → guardedJsonSet o.materiales = .ok ms →
        datosCliente o.datos = .error .handled →
        mkEnrichedOrder o = some ⟨o, o.id, ∅, ∅, none⟩)
    ∧ (∀ (o : SchedulableOrderModel) (cs : Finset String),
        guardedJsonSet o.colores = .ok cs → guardedJsonSet o.materiales = .error .handled →
        mkEnrichedOrder o = some ⟨o, o.id, ∅, ∅, none⟩)
    ∧ (∀ (o : SchedulableOrderModel),
        guardedJsonSet o.colores = .error .handled →
        mkEnrichedOrder o = some ⟨o, o.id, ∅, ∅, none⟩)
    ∧ (∀ (o : SchedulableOrderModel) (cs ms : Finset String) (idc : Option PyVal),
        guardedJsonSet o.colores = .ok cs → guardedJsonSet o.materiales = .ok ms →
        datosCliente o.datos = .ok idc →
        mkEnrichedOrder o = some ⟨o, o.id, cs, ms, idc⟩) := by
  refine ⟨?_, ?_, ?_, ?_⟩
  · intro o cs ms hc hm hd
    simp [mkEnrichedOrder, hc, hm, hd, Except.bind, bind]
  · intro o cs hc hm
    simp [mkEnrichedOrder, hc, hm, Except.bind, bind]
  · intro o hc
    simp [mkEnrichedOrder, hc, Except.bind, bind]
  · intro o cs ms idc hc hm hd
    simp [mkEnrichedOrder, hc, hm, hd, Except.bind, bind]

/-- C9, witness for the amended statement: the faulty-`datos` order with
successfully parsed `colores` and `materiales`. -/
theorem C9_witness :
    guardedJsonSet oDatosMalos.colores = .ok {"A"}
    ∧ guardedJsonSet oDatosMalos.materiales = .ok ∅
    ∧ datosCliente oDatosMalos.datos = .error .handled
    ∧ mkEnrichedOrder oDatosMalos = some ⟨oDatosMalos, oDatosMalos.id, ∅, ∅, none⟩ := by
  have hc : guardedJsonSet oDatosMalos.colores = .ok {"A"} := by
    norm_num +decide [guardedJsonSet, jsonSet, oDatosMalos, RawJson.truthy]
  have hm : guardedJsonSet oDatosMalos.materiales = .ok ∅ := by
    norm_num +decide [guardedJsonSet, jsonSet, oDatosMalos, RawJson.truthy]
  have hd : datosCliente oDatosMalos.datos = .error .handled := by
    norm_num +decide [datosCliente, datosLoads, oDatosMalos, RawJson.truthy, Except.bind, bind]
  exact ⟨hc, hm, hd, C9_parse_failure_resets_all.1 oDatosMalos {"A"} ∅ hc hm hd⟩

/-! ## Claim C10 -/

/-- C10: with two 12-hour weekday shifts from 07:00 and Sunday non-working,
a weekday provides 1440 working minutes, so `hora_fin = 7 + 1440/60 = 31`
and `datetime.replace(hour=31, ...)` raises `ValueError`: the calendar walk
started on a Monday (minute 480 = 08:00) with any positive duration fails
with the hour-out-of-range error instead of returning a timestamp. -/
theorem C10_hour_out_of_range (fuel : ℕ) (d : ℚ) (hd : 0 < d) :
    ajustarHorarioLaboral cfgC10 480 d (fuel + 1) = .hourError := by
  have h247 : esCalendario247 cfgC10 = false := by
    norm_num [esCalendario247, minutosLaborables, cfgC10, List.range, List.range.loop,
      List.all_cons]
  rw [ajustarHorarioLaboral, h247]
  rw [ajustarLoop, if_neg (not_le.mpr hd)]
  norm_num [horaFinDe, weekdayOf, dayIndex, minutosLaborables, cfgC10]

/-- C10, witness: the failure at fuel 3 and duration 60. -/
theorem C10_witness : ajustarHorarioLaboral cfgC10 480 60 (3 + 1) = .hourError :=
  C10_hour_out_of_range 3 60 (by norm_num)

/-! ## Claim C1 -/

/-- The record emitted for `oDosEtiquetas` under the service configuration:
400 minutes of real print time (950 / 2.5 / 0.95), one inter-label change of
15 minutes, no setup, a buffer of 4 minutes (1% of the print time alone) and
a total of 404 minutes. -/
def recDosEtiquetas : RegistroOrden :=
  { orden := oDosEtiquetas
    probable_fecha_entrega := 404
    tiempo_setup_min := 0
    tiempo_cambios_internos_min := 15
    tiempo_impresion_min := 400
    tiempo_buffer_min := 4
    tiempo_total_min := 404 }

/-- C1, counterexample.  The emitted record for a single two-label order has
`buffer_min = 4 = print_min * 0.01` and `total_min = 404 = print_min +
buffer_min`, violating both identities of the claim: the claimed buffer
would be `(0 + 15 + 400) * 0.01 = 4.15` and the claimed total `419.15`.
The 15 inter-label minutes are reported in the record but excluded from the
buffer, the total, and the timestamp advance. -/
theorem C1_counterexample :
    calcularFechasProbables cfgService mStd [oDosEtiquetas] 0 5 = some [recDosEtiquetas]
    ∧ recDosEtiquetas.tiempo_buffer_min ≠
        (recDosEtiquetas.tiempo_setup_min + recDosEtiquetas.tiempo_cambios_internos_min
          + recDosEtiquetas.tiempo_impresion_min) * cfgService.buffer_seguridad_pct
    ∧ recDosEtiquetas.tiempo_total_min ≠
        recDosEtiquetas.tiempo_setup_min + recDosEtiquetas.tiempo_cambios_internos_min
          + recDosEtiquetas.tiempo_impresion_min + recDosEtiquetas.tiempo_buffer_min := by
  refine ⟨?_, ?_, ?_⟩
  · norm_num +decide [calcularFechasProbables, calcularFechasLoop, tiempoImpresionReal, pyOr,
      pyOrZ, oDosEtiquetas, mStd, cfgService, recDosEtiquetas, ajustarHorarioLaboral,
      esCalendario247, minutosLaborables, List.range, List.range.loop]
  · norm_num [recDosEtiquetas, cfgService]
  · norm_num [recDosEtiquetas]

/-- C1, amended: in every emitted record, `buffer_min` is the real print
time times the safety-buffer fraction and `total_min` is the real print time
plus `buffer_min` (setup and inter-label changeover are reported in the
record but excluded from both), and the running timestamp is advanced
through the working calendar by exactly that `total_min`. -/
theorem C1_buffer_total_from_print_only (cfg : PlannerConfig) (m : MachineModel) (fuel : ℕ)
    (prev : Option SchedulableOrderModel) (start : ℚ)
    (ordenes : List SchedulableOrderModel) (res : List RegistroOrden)
    (h : calcularFechasLoop cfg m fuel prev start ordenes = some res) :
    (∀ r ∈ res,
        r.tiempo_buffer_min = r.tiempo_impresion_min * cfg.buffer_seguridad_pct
        ∧ r.tiempo_total_min = r.tiempo_impresion_min + r.tiempo_buffer_min)
    ∧ datesChained cfg fuel start res = true := by
  induction ordenes generalizing prev start res with
  | nil =>
      simp only [calcularFechasLoop, Option.some.injEq] at h
      subst h
      simp [datesChained]
  | cons o rest ih =>
      simp only [calcularFechasLoop] at h
      split at h
      · exact absurd h (by simp)
      · rename_i tiempo_setup hsetup
        split at h
        · exact absurd h (by simp)
        · exact absurd h (by simp)
        · rename_i fecha_fin hadv
          split at h
          · exact absurd h (by simp)
          · rename_i resto hrec
            rw [Option.some.injEq] at h
            subst h
            obtain ⟨ihmem, ihchain⟩ := ih (some o) fecha_fin resto hrec
            refine ⟨?_, ?_⟩
            · intro r hr
              rcases List.mem_cons.mp hr with rfl | hr
              · exact ⟨rfl, rfl⟩
              · exact ihmem r hr
            · simp [datesChained, hadv, ihchain]

/-- C1, witness for the amended statement: the single two-label order. -/
theorem C1_witness :
    calcularFechasLoop cfgService mStd 5 none 0 [oDosEtiquetas] = some [recDosEtiquetas]
    ∧ ((∀ r ∈ [recDosEtiquetas],
          r.tiempo_buffer_min = r.tiempo_impresion_min * cfgService.buffer_seguridad_pct
          ∧ r.tiempo_total_min = r.tiempo_impresion_min + r.tiempo_buffer_min)
        ∧ datesChained cfgService 5 0 [recDosEtiquetas] = true) := by
  have h : calcularFechasLoop cfgService mStd 5 none 0 [oDosEtiquetas] = some [recDosEtiquetas] := by
    norm_num +decide [calcularFechasLoop, tiempoImpresionReal, pyOr, pyOrZ, oDosEtiquetas,
      mStd, cfgService, recDosEtiquetas, ajustarHorarioLaboral, esCalendario247,
      minutosLaborables, List.range, List.range.loop]
  exact ⟨h, C1_buffer_total_from_print_only cfgService mStd 5 none 0 [oDosEtiquetas]
    [recDosEtiquetas] h⟩

/-! ## Unfolding lemmas for the calendar loop -/

/-- One-step unfolding of `ajustarLoop` at successor fuel. -/
theorem ajustarLoop_succ (cfg : PlannerConfig) (fuel : ℕ) (fecha restantes : ℚ) :
    ajustarLoop cfg (fuel + 1) fecha restantes =
      if restantes ≤ 0 then .ok fecha
      else
        if minutosLaborables cfg (weekdayOf fecha) = 0 then
          if 24 ≤ cfg.hora_inicio_turno1 then .hourError
          else ajustarLoop cfg fuel (nextDayStart cfg fecha) restantes
        else
          if 24 ≤ ⌊horaFinDe cfg fecha⌋ then .hourError
          else
            if restantes ≤ max 0 (finJornadaHoy cfg fecha - fecha) then
              .ok (fecha + restantes)
            else if 24 ≤ cfg.hora_inicio_turno1 then .hourError
            else ajustarLoop cfg fuel (nextDayStart cfg fecha)
              (restantes - max 0 (finJornadaHoy cfg fecha - fecha)) := rfl

/-- Unfolding of `ajustarLoop` at zero fuel. -/
theorem ajustarLoop_zero (cfg : PlannerConfig) (fecha restantes : ℚ) :
    ajustarLoop cfg 0 fecha restantes =
      if restantes ≤ 0 then .ok fecha else .fuelOut := rfl

/-! ## Claim C3 -/

/-- C3, counterexample.  Under the default configuration (working window
07:00-17:00 on a Monday), the walk started at Monday 02:00 (minute 120) with
a 60-minute duration returns Monday 03:00 (minute 180): the time is never
moved to day-start (minute 420 = 07:00), and all 60 minutes are consumed
before the working window opens. -/
theorem C3_counterexample :
    ajustarHorarioLaboral cfgDefault 120 60 5 = .ok 180
    ∧ (180 : ℚ) < 60 * (cfgDefault.hora_inicio_turno1 : ℚ) := by
  constructor
  · norm_num [ajustarHorarioLaboral, esCalendario247, ajustarLoop, minutosLaborables,
      cfgDefault, weekdayOf, dayIndex, replaceHM, nextDayStart, horaFinDe, finJornadaHoy,
      Int.fract, List.range, List.range.loop]
  · norm_num [cfgDefault]

/-- C3, amended: on a working day the walk does not move the current time to
day-start; it treats every minute from the current timestamp up to
`fin_jornada_hoy` (day-start hour plus the day's working minutes) as
available, so when the remaining duration fits there the result is exactly
`start + duration`, even when the start lies before the working window.
Only a non-working day, or exhausting `fin_jornada_hoy`, jumps the time to
the next day's start hour. -/
theorem C3_consumes_from_current_time (cfg : PlannerConfig) (t d : ℚ) (fuel : ℕ)
    (h247 : esCalendario247 cfg = false)
    (hwork : minutosLaborables cfg (weekdayOf t) ≠ 0)
    (hhour : ⌊horaFinDe cfg t⌋ < 24)
    (hd : 0 < d)
    (hfit : d ≤ finJornadaHoy cfg t - t) :
    ajustarHorarioLaboral cfg t d (fuel + 1) = .ok (t + d) := by
  rw [ajustarHorarioLaboral, h247, if_neg (show ¬ (false = true) by simp)]
  rw [ajustarLoop_succ, if_neg (not_le.mpr hd), if_neg hwork, if_neg (not_le.mpr hhour),
    if_pos (le_trans hfit (le_max_right 0 _))]

/-- C3, witness for the amended statement: the Monday 02:00 start. -/
theorem C3_witness :
    esCalendario247 cfgDefault = false
    ∧ minutosLaborables cfgDefault (weekdayOf 120) ≠ 0
    ∧ ⌊horaFinDe cfgDefault 120⌋ < 24
    ∧ (60 : ℚ) ≤ finJornadaHoy cfgDefault 120 - 120
    ∧ ajustarHorarioLaboral cfgDefault 120 60 (4 + 1) = .ok (120 + 60) := by
  have h1 : esCalendario247 cfgDefault = false := by
    norm_num [esCalendario247, minutosLaborables, cfgDefault, List.range, List.range.loop]
  have h2 : minutosLaborables cfgDefault (weekdayOf 120) ≠ 0 := by
    norm_num [minutosLaborables, weekdayOf, dayIndex, cfgDefault]
  have h3 : ⌊horaFinDe cfgDefault 120⌋ < 24 := by
    norm_num [horaFinDe, minutosLaborables, weekdayOf, dayIndex, cfgDefault]
  have h4 : (60 : ℚ) ≤ finJornadaHoy cfgDefault 120 - 120 := by
    norm_num [finJornadaHoy, replaceHM, horaFinDe, minutosLaborables, weekdayOf, dayIndex,
      cfgDefault, Int.fract]
  exact ⟨h1, h2, h3, h4,
    C3_consumes_from_current_time cfgDefault 120 60 4 h1 h2 h3 (by norm_num) h4⟩

/-! ## Arithmetic facts about the datetime model -/

/-- A timestamp lies within its calendar day. -/
theorem dayIndex_bounds (t : ℚ) :
    1440 * (dayIndex t : ℚ) ≤ t ∧ t < 1440 * (dayIndex t : ℚ) + 1440 := by
  have h1 : ((⌊t / 1440⌋ : ℤ) : ℚ) ≤ t / 1440 := Int.floor_le _
  have h2 : t / 1440 < (⌊t / 1440⌋ : ℚ) + 1 := Int.lt_floor_add_one _
  constructor
  · have := mul_le_mul_of_nonneg_left h1 (by norm_num : (0:ℚ) ≤ 1440)
    rw [dayIndex]
    nlinarith
  · have := mul_lt_mul_of_pos_left h2 (by norm_num : (0:ℚ) < 1440)
    rw [dayIndex]
    nlinarith

/-- Closed form of `nextDayStart`. -/
theorem nextDayStart_eq (cfg : PlannerConfig) (t : ℚ) :
    nextDayStart cfg t =
      1440 * (dayIndex t : ℚ) + 1440 + 60 * (cfg.hora_inicio_turno1 : ℚ) + Int.fract t := by
  have hday : dayIndex (t + 1440) = dayIndex t + 1 := by
    rw [dayIndex, dayIndex, show (t + 1440) / 1440 = t / 1440 + 1 by ring]
    exact Int.floor_add_one _
  have hfract : Int.fract (t + 1440) = Int.fract t := by
    have : t + (1440 : ℚ) = t + ((1440 : ℤ) : ℚ) := by norm_num
    rw [this, Int.fract_add_int]
  rw [nextDayStart, replaceHM, hday, hfract]
  push_cast
  ring

/-- The walk never moves backwards when it jumps to the next day's start. -/
theorem lt_nextDayStart (cfg : PlannerConfig) (t : ℚ) : t < nextDayStart cfg t := by
  rw [nextDayStart_eq]
  have h1 := (dayIndex_bounds t).2
  have h2 : 0 ≤ (cfg.hora_inicio_turno1 : ℚ) := by positivity
  have h3 : 0 ≤ Int.fract t := Int.fract_nonneg t
  have h4 : Int.fract t = t - (⌊t⌋ : ℚ) := rfl
  have h5 : (⌊t⌋ : ℚ) ≤ t := Int.floor_le t
  linarith

/-- When the computed end-of-day hour is a legal clock hour, the end of the
working day lies no later than the next day's start. -/
theorem finJornadaHoy_le_nextDayStart (cfg : PlannerConfig) (t : ℚ)
    (hhour : ⌊horaFinDe cfg t⌋ < 24) :
    finJornadaHoy cfg t ≤ nextDayStart cfg t := by
  rw [finJornadaHoy, replaceHM, nextDayStart_eq]
  set x := horaFinDe cfg t with hx
  have hmnt_hi : ⌊60 * x⌋ - 60 * ⌊x⌋ ≤ 59 := by
    have : (60 : ℚ) * x < ((60 * ⌊x⌋ + 60 : ℤ) : ℚ) := by
      have := Int.lt_floor_add_one x
      push_cast
      nlinarith
    have := Int.floor_lt.mpr this
    omega
  have hh : ⌊x⌋ ≤ 23 := by omega
  have h2 : 0 ≤ (cfg.hora_inicio_turno1 : ℚ) := by positivity
  have hcast1 : ((⌊x⌋ : ℤ) : ℚ) ≤ 23 := by exact_mod_cast hh
  have hcast2 : ((⌊60 * x⌋ - 60 * ⌊x⌋ : ℤ) : ℚ) ≤ 59 := by exact_mod_cast hmnt_hi
  push_cast at hcast2 ⊢
  linarith

/-- Whenever the calendar loop returns a timestamp, the elapsed wall-clock
time is at least the working duration consumed. -/
theorem ajustarLoop_ok_le (cfg : PlannerConfig) :
    ∀ (fuel : ℕ) (fecha restantes r : ℚ),
      ajustarLoop cfg fuel fecha restantes = .ok r → fecha + restantes ≤ r := by
  intro fuel
  induction fuel with
  | zero =>
      intro fecha restantes r h
      rw [ajustarLoop_zero] at h
      split at h
      · rename_i h0
        injection h with h
        subst h
        linarith
      · cases h
  | succ fuel ih =>
      intro fecha restantes r h
      rw [ajustarLoop_succ] at h
      split at h
      · rename_i h0
        injection h with h
        subst h
        linarith
      · split at h
        · split at h
          · cases h
          · have hnext := ih _ _ _ h
            have hlt := lt_nextDayStart cfg fecha
            linarith
        · split at h
          · cases h
          · split at h
            · injection h with h
              subst h
              exact le_rfl
            · split at h
              · cases h
              · rename_i hr0 hm0 hfl hmax hini
                have hnext := ih _ _ _ h
                have hmaxeq : fecha + max 0 (finJornadaHoy cfg fecha - fecha)
                    = max fecha (finJornadaHoy cfg fecha) := by
                  rw [← max_add_add_left]
                  ring_nf
                have hfin : finJornadaHoy cfg fecha ≤ nextDayStart cfg fecha :=
                  finJornadaHoy_le_nextDayStart cfg fecha (not_le.mp hfl)
                have hle : fecha + max 0 (finJornadaHoy cfg fecha - fecha)
                    ≤ nextDayStart cfg fecha := by
                  rw [hmaxeq]
                  exact max_le (le_of_lt (lt_nextDayStart cfg fecha)) hfin
                linarith

/-! ## Claim C7 -/

/-- C7: calendar advance with duration 0 returns the starting timestamp
unchanged (the `while` loop is never entered, and the 24/7 fast path adds
0); and whenever advance returns a timestamp for a duration `d ≥ 0`, the
returned timestamp is at least the start plus `d` — elapsed wall-clock time
is at least the working duration consumed. -/
theorem C7_calendar_advance_bounds :
    (∀ (cfg : PlannerConfig) (t : ℚ) (fuel : ℕ),
        ajustarHorarioLaboral cfg t 0 fuel = .ok t)
    ∧ (∀ (cfg : PlannerConfig) (t d r : ℚ) (fuel : ℕ), 0 ≤ d →
        ajustarHorarioLaboral cfg t d fuel = .ok r → t + d ≤ r) := by
  constructor
  · intro cfg t fuel
    rw [ajustarHorarioLaboral]
    split
    · norm_num
    · cases fuel with
      | zero => rw [ajustarLoop_zero, if_pos le_rfl]
      | succ fuel => rw [ajustarLoop_succ, if_pos le_rfl]
  · intro cfg t d r fuel hd h
    rw [ajustarHorarioLaboral] at h
    split at h
    · injection h with h
      subst h
      exact le_rfl
    · exact ajustarLoop_ok_le cfg fuel t d r h

/-- C7, witness: both parts at concrete inputs under the service
configuration (24/7 fast path) and the default configuration (day-by-day
loop crossing a weekend). -/
theorem C7_witness :
    ajustarHorarioLaboral cfgService 100 0 3 = .ok 100
    ∧ (0 : ℚ) ≤ 60
    ∧ ajustarHorarioLaboral cfgService 0 60 1 = .ok 60
    ∧ (0 : ℚ) + 60 ≤ 60 := by
  have h : ajustarHorarioLaboral cfgService 0 60 1 = .ok 60 := by
    norm_num [ajustarHorarioLaboral, esCalendario247, minutosLaborables, cfgService,
      List.range, List.range.loop]
  exact ⟨C7_calendar_advance_bounds.1 cfgService 100 3, by norm_num, h,
    C7_calendar_advance_bounds.2 cfgService 0 60 60 1 (by norm_num) h⟩

/-! ## Claim C8 -/

/-- C8: whenever the accumulated running time exceeds an order's deadline in
minutes (`days_remaining * 1440`), the lateness contribution of the fitness
walk is `min(overshoot * weight, 500000)` with weight 50 for negative
days-remaining (CRITICA_ATRASADA or ATRASADA), 20 for 0..3 days (URGENTE)
and 10 otherwise; an order with missing days-remaining is classified NORMAL
(999 days) and contributes no lateness penalty. -/
theorem C8_lateness_penalty :
    (∀ (o : SchedulableOrderModel) (d : ℤ) (t : ℚ),
        o.dias_restantes = some d → (d : ℚ) * 1440 < t →
        penalizacionRetraso o t =
          min ((t - (d : ℚ) * 1440) * (if d < 0 then 50 else if d ≤ 3 then 20 else 10))
            500000)
    ∧ (∀ (o : SchedulableOrderModel) (t : ℚ), o.dias_restantes = none →
        clasificarUrgencia o = .NORMAL ∧ penalizacionRetraso o t = 0) := by
  constructor
  · intro o d t hd ht
    simp only [penalizacionRetraso, hd, clasificarUrgencia, Option.getD_some, if_pos ht,
      DELAY_PENALTY_WEIGHT]
    split_ifs with h1 h2 h3 h4 h5 h6 <;> first
      | rfl
      | omega
  · intro o t hd
    constructor
    · simp only [clasificarUrgencia, hd, Option.getD_none]
      norm_num
    · simp only [penalizacionRetraso, hd]

/-- An overdue order (five days past due). -/
def oAtrasada : SchedulableOrderModel := { id := 50, dias_restantes := some (-5) }

/-- An order with no recorded days-remaining. -/
def oSinDias : SchedulableOrderModel := { id := 51 }

/-- C8, witness: the overdue order past its deadline, and the order with no
days-remaining. -/
theorem C8_witness :
    oAtrasada.dias_restantes = some (-5)
    ∧ ((-5 : ℤ) : ℚ) * 1440 < 1000
    ∧ penalizacionRetraso oAtrasada 1000 =
        min ((1000 - ((-5 : ℤ) : ℚ) * 1440) *
          (if (-5 : ℤ) < 0 then 50 else if (-5 : ℤ) ≤ 3 then 20 else 10)) 500000
    ∧ oSinDias.dias_restantes = none
    ∧ clasificarUrgencia oSinDias = .NORMAL
    ∧ penalizacionRetraso oSinDias 99999 = 0 := by
  have h1 : oAtrasada.dias_restantes = some (-5) := rfl
  have h2 : ((-5 : ℤ) : ℚ) * 1440 < 1000 := by norm_num
  have h3 : oSinDias.dias_restantes = none := rfl
  exact ⟨h1, h2, C8_lateness_penalty.1 oAtrasada (-5) 1000 h1 h2, h3,
    (C8_lateness_penalty.2 oSinDias 99999 h3).1, (C8_lateness_penalty.2 oSinDias 99999 h3).2⟩

/-- Positional fact about a concatenation whose first block satisfies a
test and whose second block refutes it: a passing position always precedes a
failing one. -/
theorem forced_prefix_positions {a : Type} (P : a → Bool) (A B : List a)
    (hA : ∀ x ∈ A, P x = true) (hB : ∀ x ∈ B, P x = false)
    (k₁ k₂ : ℕ) (h₁ : k₁ < (A ++ B).length) (h₂ : k₂ < (A ++ B).length)
    (ht : P ((A ++ B).get ⟨k₁, h₁⟩) = true) (hf : P ((A ++ B).get ⟨k₂, h₂⟩) = false) :
    k₁ < k₂ := by
  have hk1 : k₁ < A.length := by
    by_contra hle
    push_neg at hle
    rw [List.get_eq_getElem, List.getElem_append_right hle] at ht
    rw [hB _ (List.getElem_mem _)] at ht
    cases ht
  have hk2 : ¬ k₂ < A.length := by
    intro hlt
    rw [List.get_eq_getElem, List.getElem_append_left hlt] at hf
    rw [hA _ (List.getElem_mem _)] at hf
    cases hf
  omega

/-! ## Claim C5 -/

/-- C5: in the schedule built by `generate_optimal_schedule` (and by the
per-machine body of the all-machines planner), every id carried by an order
with a forced delivery date precedes every id carried by an order without
one, the forced block is sorted ascending by forced date, and the list
handed to the genetic sequencer (`ordenes_optimizables`) contains no order
with a forced date.  `gaOut` is the sequencer's output, a rearrangement of
the optimizable ids, and order ids are pairwise distinct. -/
theorem C5_forced_orders_first (orders : List SchedulableOrderModel) (gaOut : List ℤ)
    (hga : ∀ i ∈ gaOut, i ∈ (ordenesOptimizables orders).map (fun o => o.id))
    (hnd : (orders.map (fun o => o.id)).Nodup) :
    (∀ (k₁ k₂ : ℕ) (h₁ : k₁ < (secuenciaFinalIds orders gaOut).length)
        (h₂ : k₂ < (secuenciaFinalIds orders gaOut).length),
        esForzosaId orders ((secuenciaFinalIds orders gaOut).get ⟨k₁, h₁⟩) = true →
        esForzosaId orders ((secuenciaFinalIds orders gaOut).get ⟨k₂, h₂⟩) = false →
        k₁ < k₂)
    ∧ (ordenesForzosas orders).Pairwise (fun a b => leFechaForzosa a b = true)
    ∧ (∀ o ∈ ordenesOptimizables orders, o.fecha_forzosa_entrega = none) := by
  have hA : ∀ x ∈ (ordenesForzosas orders).map (fun o => o.id),
      esForzosaId orders x = true := by
    intro x hx
    obtain ⟨o, ho, rfl⟩ := List.mem_map.mp hx
    have hmem := List.mem_mergeSort.mp ho
    obtain ⟨ho1, ho2⟩ := List.mem_filter.mp hmem
    exact List.any_eq_true.mpr ⟨o, ho1, by simp [ho2]⟩
  have hB : ∀ i ∈ gaOut, esForzosaId orders i = false := by
    intro i hi
    cases hcase : esForzosaId orders i with
    | false => rfl
    | true =>
        exfalso
        obtain ⟨o', ho', hcond⟩ := List.any_eq_true.mp hcase
        rw [Bool.and_eq_true, decide_eq_true_eq] at hcond
        obtain ⟨hid, hsome⟩ := hcond
        obtain ⟨o, ho, hoid⟩ := List.mem_map.mp (hga i hi)
        obtain ⟨hoo, hnone⟩ := List.mem_filter.mp ho
        have heq : o = o' := List.inj_on_of_nodup_map hnd hoo ho' (by rw [hoid, hid])
        rw [← heq] at hsome
        rw [Option.isNone_iff_eq_none] at hnone
        rw [hnone] at hsome
        cases hsome
  refine ⟨?_, ?_, ?_⟩
  · intro k₁ k₂ h₁ h₂ ht hf
    exact forced_prefix_positions (esForzosaId orders)
      ((ordenesForzosas orders).map (fun o => o.id)) gaOut hA hB k₁ k₂
      (by exact h₁) (by exact h₂) (by exact ht) (by exact hf)
  · rw [ordenesForzosas]
    refine List.sorted_mergeSort ?_ ?_ _
    · intro a b c hab hbc
      rw [leFechaForzosa, decide_eq_true_eq] at hab hbc ⊢
      exact le_trans hab hbc
    · intro a b
      rw [Bool.or_eq_true, leFechaForzosa, leFechaForzosa, decide_eq_true_eq,
        decide_eq_true_eq]
      exact le_total _ _
  · intro o ho
    exact Option.isNone_iff_eq_none.mp (List.mem_filter.mp ho).2

/-- The order pool used by the C5 witness: two forced-date orders (dates
200 and 100) and two free orders. -/
def ordersC5 : List SchedulableOrderModel :=
  [ { id := 1, fecha_forzosa_entrega := some 200 },
    { id := 2, fecha_forzosa_entrega := some 100 },
    { id := 3 },
    { id := 4 } ]

/-- C5, witness: the concrete pool with the sequencer returning `[4, 3]`. -/
theorem C5_witness :
    (∀ i ∈ ([4, 3] : List ℤ), i ∈ (ordenesOptimizables ordersC5).map (fun o => o.id))
    ∧ (ordersC5.map (fun o => o.id)).Nodup
    ∧ ((∀ (k₁ k₂ : ℕ) (h₁ : k₁ < (secuenciaFinalIds ordersC5 [4, 3]).length)
          (h₂ : k₂ < (secuenciaFinalIds ordersC5 [4, 3]).length),
          esForzosaId ordersC5 ((secuenciaFinalIds ordersC5 [4, 3]).get ⟨k₁, h₁⟩) = true →
          esForzosaId ordersC5 ((secuenciaFinalIds ordersC5 [4, 3]).get ⟨k₂, h₂⟩) = false →
          k₁ < k₂)
        ∧ (ordenesForzosas ordersC5).Pairwise (fun a b => leFechaForzosa a b = true)
        ∧ (∀ o ∈ ordenesOptimizables ordersC5, o.fecha_forzosa_entrega = none)) := by
  have hga : ∀ i ∈ ([4, 3] : List ℤ),
      i ∈ (ordenesOptimizables ordersC5).map (fun o => o.id) := by
    intro i hi
    simp only [ordenesOptimizables, ordersC5] at *
    norm_num at hi ⊢
    rcases hi with rfl | rfl <;> norm_num
  have hnd : (ordersC5.map (fun o => o.id)).Nodup := by
    simp [ordersC5]
  exact ⟨hga, hnd, C5_forced_orders_first ordersC5 [4, 3] hga hnd⟩

/-! ## Claim C6 -/

/-- The position-indexed enriched order table of the C6 scenario. -/
def ordenesC6 : List EnrichedOrder := [eCincoColores, eSinColores]

/-- The fitness of the C6 scenario: two orders on the standard machine. -/
def fitnessC6 : List ℕ → ℚ := evaluateFitness mStd ordenesC6

/-- A legitimate draw of one generation's randomness on a population of
two: every tournament samples only position 1, and no crossover or mutation
coin comes up. -/
def genC6 : GenRand :=
  { aspirant_draws := [[1, 1, 1], [1, 1, 1]]
    cx_flips := List.replicate 1 false
    mut_flips := List.replicate 2 false }

/-- The score of `hofUpdate` never exceeds the stored individual's score. -/
theorem hofUpdate_le_self (score : List ℕ → ℚ) :
    ∀ (cands : List (List ℕ)) (hof : List ℕ),
      score (hofUpdate score hof cands) ≤ score hof := by
  intro cands
  induction cands with
  | nil => intro hof; exact le_rfl
  | cons c l ih =>
      intro hof
      show score (hofUpdate score (if score c < score hof then c else hof) l) ≤ score hof
      refine le_trans (ih _) ?_
      split
      · rename_i hlt
        exact le_of_lt hlt
      · exact le_rfl

/-- The score of `hofUpdate` never exceeds the score of any candidate it
saw. -/
theorem hofUpdate_le_mem (score : List ℕ → ℚ) :
    ∀ (cands : List (List ℕ)) (hof : List ℕ),
      ∀ x ∈ cands, score (hofUpdate score hof cands) ≤ score x := by
  intro cands
  induction cands with
  | nil => intro hof x hx; cases hx
  | cons c l ih =>
      intro hof x hx
      show score (hofUpdate score (if score c < score hof then c else hof) l) ≤ score x
      rcases List.mem_cons.mp hx with rfl | hx
      · refine le_trans (hofUpdate_le_self score l _) ?_
        split
        · exact le_rfl
        · rename_i hge
          exact le_of_not_lt hge
      · exact ih _ x hx

/-- C6, amended: across any number of `eaSimple` generations the hall of
fame preserves the best individual observed — its score never worsens and
lower-bounds the score of every member of the final population — and it is
the individual `optimizar` returns; but `eaSimple` performs pure
generational replacement, so the best-so-far individual need not be a
member of the next generation's population. -/
theorem C6_hall_of_fame_preserves_best (score : List ℕ → ℚ)
    (mate : List ℕ → List ℕ → List ℕ × List ℕ) (mutOp : List ℕ → List ℕ) :
    ∀ (gens : List GenRand) (pop : List (List ℕ)) (hof : List ℕ),
      (∀ x ∈ pop, score hof ≤ score x) →
      score (eaSimpleRun score mate mutOp gens pop hof).2 ≤ score hof
      ∧ ∀ x ∈ (eaSimpleRun score mate mutOp gens pop hof).1,
          score (eaSimpleRun score mate mutOp gens pop hof).2 ≤ score x := by
  intro gens
  induction gens with
  | nil => intro pop hof hinv; exact ⟨le_rfl, hinv⟩
  | cons g gs ih =>
      intro pop hof hinv
      show score (eaSimpleRun score mate mutOp gs _ _).2 ≤ score hof ∧ _
      obtain ⟨ih1, ih2⟩ := ih (eaSimpleStep score mate mutOp g pop)
        (hofUpdate score hof (eaSimpleStep score mate mutOp g pop))
        (hofUpdate_le_mem score _ hof)
      exact ⟨le_trans ih1 (hofUpdate_le_self score _ hof), ih2⟩

/-- C6, counterexample.  On a two-order instance, the permutation `[0, 1]`
(ink-heavy order first) is strictly better than `[1, 0]`; with tournaments
that only sample position 1 and no crossover or mutation draws — a possible
outcome for every population size and seed — one `eaSimple` generation
replaces the population by two copies of the worse individual, and the best
individual observed so far (still the hall-of-fame entry) is not a member
of the next generation's population. -/
theorem C6_counterexample :
    mkEnrichedOrder oCincoColores = some eCincoColores
    ∧ mkEnrichedOrder oSinColores = some eSinColores
    ∧ fitnessC6 [0, 1] < fitnessC6 [1, 0]
    ∧ eaSimpleStep fitnessC6 trivialMate trivialMut genC6 [[0, 1], [1, 0]] = [[1, 0], [1, 0]]
    ∧ hofUpdate fitnessC6 [0, 1] [[1, 0], [1, 0]] = [0, 1]
    ∧ [0, 1] ∉ ([[1, 0], [1, 0]] : List (List ℕ)) := by
  have hfit0 : fitnessC6 [0, 1] = -209250 := by
    norm_num +decide [fitnessC6, evaluateFitness, evaluateFitnessLoop, shapingTerm,
      calcularCostoCambio, estimarTiempoProduccion, penalizacionRetraso, pyOr, pyOrZ,
      pyTruthyOpt, ordenesC6, eCincoColores, eSinColores, oCincoColores, oSinColores, mStd,
      SETUP_COST_WEIGHT, HIGH_INK_PRIORITY_WEIGHT, INK_OVERCAPACITY_PENALTY,
      MATERIAL_CHANGE_FACTOR, MATERIAL_SAME_FACTOR, INK_ADD_COST, INK_CLEAN_COST,
      COLOR_REUSE_BONUS, SAME_CLIENT_BONUS_FACTOR, DELAY_PENALTY_WEIGHT]
  have hfit1 : fitnessC6 [1, 0] = 25750 := by
    norm_num +decide [fitnessC6, evaluateFitness, evaluateFitnessLoop, shapingTerm,
      calcularCostoCambio, estimarTiempoProduccion, penalizacionRetraso, pyOr, pyOrZ,
      pyTruthyOpt, ordenesC6, eCincoColores, eSinColores, oCincoColores, oSinColores, mStd,
      SETUP_COST_WEIGHT, HIGH_INK_PRIORITY_WEIGHT, INK_OVERCAPACITY_PENALTY,
      MATERIAL_CHANGE_FACTOR, MATERIAL_SAME_FACTOR, INK_ADD_COST, INK_CLEAN_COST,
      COLOR_REUSE_BONUS, SAME_CLIENT_BONUS_FACTOR, DELAY_PENALTY_WEIGHT]
  refine ⟨?_, ?_, ?_, ?_, ?_, by simp⟩
  · norm_num +decide [mkEnrichedOrder, guardedJsonSet, datosCliente, oCincoColores,
      eCincoColores, jsonSet, datosLoads, datosGet, RawJson.truthy, Except.bind, bind]
  · norm_num +decide [mkEnrichedOrder, guardedJsonSet, datosCliente, oSinColores,
      eSinColores, jsonSet, datosLoads, datosGet, RawJson.truthy, Except.bind, bind]
  · rw [hfit0, hfit1]
    norm_num
  · have hsel : selTournament fitnessC6 [[0, 1], [1, 0]] genC6.aspirant_draws
        = [[1, 0], [1, 0]] := by
      simp [selTournament, genC6, List.getD]
    rw [eaSimpleStep, hsel]
    exact varAnd_all_false trivialMate trivialMut 1 2 [[1, 0], [1, 0]]
  · norm_num [hofUpdate, List.foldl_cons, List.foldl_nil, hfit0, hfit1]

/-- C6, witness for the amended statement: one generation on the two-order
instance starting from the better individual as hall of fame. -/
theorem C6_witness :
    (∀ x ∈ ([[0, 1], [1, 0]] : List (List ℕ)), fitnessC6 [0, 1] ≤ fitnessC6 x)
    ∧ fitnessC6 (eaSimpleRun fitnessC6 trivialMate trivialMut [genC6] [[0, 1], [1, 0]] [0, 1]).2
        ≤ fitnessC6 [0, 1]
    ∧ ∀ x ∈ (eaSimpleRun fitnessC6 trivialMate trivialMut [genC6] [[0, 1], [1, 0]] [0, 1]).1,
        fitnessC6 (eaSimpleRun fitnessC6 trivialMate trivialMut [genC6] [[0, 1], [1, 0]] [0, 1]).2
          ≤ fitnessC6 x := by
  have hfit0 : fitnessC6 [0, 1] = -209250 := by
    norm_num +decide [fitnessC6, evaluateFitness, evaluateFitnessLoop, shapingTerm,
      calcularCostoCambio, estimarTiempoProduccion, penalizacionRetraso, pyOr, pyOrZ,
      pyTruthyOpt, ordenesC6, eCincoColores, eSinColores, oCincoColores, oSinColores, mStd,
      SETUP_COST_WEIGHT, HIGH_INK_PRIORITY_WEIGHT, INK_OVERCAPACITY_PENALTY,
      MATERIAL_CHANGE_FACTOR, MATERIAL_SAME_FACTOR, INK_ADD_COST, INK_CLEAN_COST,
      COLOR_REUSE_BONUS, SAME_CLIENT_BONUS_FACTOR, DELAY_PENALTY_WEIGHT]
  have hfit1 : fitnessC6 [1, 0] = 25750 := by
    norm_num +decide [fitnessC6, evaluateFitness, evaluateFitnessLoop, shapingTerm,
      calcularCostoCambio, estimarTiempoProduccion, penalizacionRetraso, pyOr, pyOrZ,
      pyTruthyOpt, ordenesC6, eCincoColores, eSinColores, oCincoColores, oSinColores, mStd,
      SETUP_COST_WEIGHT, HIGH_INK_PRIORITY_WEIGHT, INK_OVERCAPACITY_PENALTY,
      MATERIAL_CHANGE_FACTOR, MATERIAL_SAME_FACTOR, INK_ADD_COST, INK_CLEAN_COST,
      COLOR_REUSE_BONUS, SAME_CLIENT_BONUS_FACTOR, DELAY_PENALTY_WEIGHT]
  have hinv : ∀ x ∈ ([[0, 1], [1, 0]] : List (List ℕ)), fitnessC6 [0, 1] ≤ fitnessC6 x := by
    intro x hx
    rcases List.mem_cons.mp hx with rfl | hx
    · exact le_rfl
    · rcases List.mem_cons.mp hx with rfl | hx
      · rw [hfit0, hfit1]; norm_num
      · cases hx
  exact ⟨hinv,
    (C6_hall_of_fame_preserves_best fitnessC6 trivialMate trivialMut [genC6]
      [[0, 1], [1, 0]] [0, 1] hinv).1,
    (C6_hall_of_fame_preserves_best fitnessC6 trivialMate trivialMut [genC6]
      [[0, 1], [1, 0]] [0, 1] hinv).2⟩
